import Mathlib

/-!
Shallow embedding of `send-email-notification` (`src/main.py`), a CLI that
composes one email (markdown body rendered to HTML, optional base64-encoded
file attachments) and sends it once through the SendGrid API.

Modelling conventions:
* file bytes are `List Nat`; the filesystem is `fs : String → Option (List Nat)`
  (`none` = unreadable path, i.e. `open` raises);
* MIME detection (`magic.from_file(path, mime=True)`, which inspects the file's
  bytes) is an abstract `mime : List Nat → String` applied to the file's bytes;
* markdown rendering is an abstract `render : String → String`;
* the SendGrid client is `provider : Mail → Except String Response`;
* the unrelated directory-walking / file-search routines in the source
  (`print_dirs`, `find_file`, `print_tree`) only print to stdout and never touch
  the message, the arguments or the provider, so they are not modelled.
-/

namespace SendEmail

/- The `AttachmentDisposition` enum of `src/main.py` (a `str` enum, so members
compare equal to their string values). -/
namespace AttachmentDisposition

def INLINE : String := "inline"

def ATTACHMENT : String := "attachment"

/-- no disposition provided by the user (default CLI behavior) -/
def EMPTY : String := ""

end AttachmentDisposition

/-- Standard base64 alphabet, as used by Python's `base64.b64encode`. -/
def b64Alphabet : List Char :=
  "ABCDEFGHIJKLMNOPQRSTUVWXYZabcdefghijklmnopqrstuvwxyz0123456789+/".toList

def b64Char (n : Nat) : Char := b64Alphabet.getD n 'A'

/-- Encode bytes three at a time into four base64 characters, `=`-padding the
final partial group, exactly as `base64.b64encode` does. -/
def b64encodeChunks : List Nat → List Char
  | [] => []
  | [b1] =>
      [b64Char (b1 / 4), b64Char (b1 % 4 * 16), '=', '=']
  | [b1, b2] =>
      [b64Char (b1 / 4), b64Char (b1 % 4 * 16 + b2 / 16), b64Char (b2 % 16 * 4), '=']
  | b1 :: b2 :: b3 :: rest =>
      b64Char (b1 / 4) :: b64Char (b1 % 4 * 16 + b2 / 16) ::
        b64Char (b2 % 16 * 4 + b3 / 64) :: b64Char (b3 % 64) :: b64encodeChunks rest

/-- `base64.b64encode(file_content).decode()` of `src/main.py` line 142. -/
def b64encode (bytes : List Nat) : String := String.mk (b64encodeChunks bytes)

/-- `pathlib.Path(filepath).name` (line 144): the final path component, with
empty and `.` components dropped as `PurePosixPath` normalisation does. -/
def pathName (p : String) : String :=
  (((p.toList.foldr
      (fun c groups =>
        match groups with
        | [] => if c = '/' then [[]] else [[c]]
        | g :: gs => if c = '/' then [] :: g :: gs else (c :: g) :: gs)
      [[]]).filter (fun g => !g.isEmpty && g ≠ ['.'])).getLast?.map String.mk).getD ""

/-- A SendGrid `Attachment` as assembled on lines 145–151: base64 file content,
display file name, MIME type, disposition, content id. -/
structure Attachment where
  fileContent : String
  fileName : String
  fileType : String
  disposition : String
  contentId : String
deriving Repr, DecidableEq

/-- The fields of a SendGrid `Mail` that this program sets (lines 170–175),
plus the attachment list that `message.add_attachment` grows. -/
structure Mail where
  from_email : String
  to_emails : List String
  subject : String
  html_content : String
  attachments : List Attachment := []
deriving Repr, DecidableEq

/-- Lines 118–119: a single disposition equal to the `EMPTY` sentinel is
treated as no dispositions at all. -/
def normalizeSentinel (dispositions : List String) : List String :=
  match dispositions with
  | [d] => if d = AttachmentDisposition.EMPTY then [] else [d]
  | _ => dispositions

/-- The `ValueError` message raised on line 126. -/
def countMismatchMsg : String :=
  "Number of attachments and dispositions must be the same"

/-- The `if not dispositions / elif / elif / raise` chain of lines 121–126,
applied to the already sentinel-normalized disposition list. -/
def dispositionPolicy (attachments ds : List String) : Except String (List String) :=
  if ds = [] then
    .ok (List.replicate attachments.length AttachmentDisposition.ATTACHMENT)
  else if ds.length = 1 then
    .ok (List.replicate attachments.length (ds.headD ""))
  else if attachments.length ≠ ds.length then
    .error countMismatchMsg
  else
    .ok ds

/-- Lines 118–126: reconcile the disposition list against the attachment list
(default-fill, broadcast, positional, or reject on count mismatch). -/
def reconcileDispositions (attachments dispositions : List String) :
    Except String (List String) :=
  dispositionPolicy attachments (normalizeSentinel dispositions)

/-- The reconciled disposition list on success, `[]` on rejection. -/
def reconciledDispositions (attachments dispositions : List String) : List String :=
  match reconcileDispositions attachments dispositions with
  | .ok ds => ds
  | .error _ => []

/-- One iteration of the loop on lines 139–151: read the file (`none` when the
`open` raises), base64-encode it, detect the MIME type from its bytes, and use
the path's final component as both file name and content id. -/
def buildAttachment? (fs : String → Option (List Nat)) (mime : List Nat → String)
    (filepath disposition : String) : Option Attachment :=
  match fs filepath with
  | none => none
  | some bytes =>
      some { fileContent := b64encode bytes
             fileName := pathName filepath
             fileType := mime bytes
             disposition := disposition
             contentId := pathName filepath }

/-- Error reported when an attachment path cannot be opened (the
`FileNotFoundError` / `PermissionError` propagating out of line 140). -/
def fileReadError (filepath : String) : String :=
  "FileAccessError: " ++ filepath

/-- The `for filepath, disposition in zip(...)` loop of lines 139–152: records
added to the message so far, plus the error that aborted the loop, if any. -/
def attachLoop (fs : String → Option (List Nat)) (mime : List Nat → String) :
    List (String × String) → List Attachment × Option String
  | [] => ([], none)
  | (p, d) :: rest =>
      match buildAttachment? fs mime p d with
      | none => ([], some (fileReadError p))
      | some a =>
          let r := attachLoop fs mime rest
          (a :: r.1, r.2)

/-- `add_attachments(message, attachments, dispositions)` (lines 117–152):
returns the message (with whatever attachments were added before any failure)
and the error that was raised, if any. -/
def add_attachments (fs : String → Option (List Nat)) (mime : List Nat → String)
    (message : Mail) (attachments dispositions : List String) :
    Mail × Option String :=
  match reconcileDispositions attachments dispositions with
  | .error e => (message, some e)
  | .ok ds =>
      let r := attachLoop fs mime (attachments.zip ds)
      ({ message with attachments := message.attachments ++ r.1 }, r.2)

/-- `is_attachment_requested(attachments)` (lines 155–156); `none` models the
`--attachments` flag being absent (`args.attachments is None`). -/
def is_attachment_requested (attachments : Option (List String)) : Bool :=
  match attachments with
  | none => false
  | some l => !l.isEmpty && l != [""]

/-- Python's `str.strip()` whitespace set, i.e. the characters for which
`str.isspace()` holds: tab through carriage return (U+0009–U+000D), the
separators U+001C–U+001F, space, next line U+0085, no-break space U+00A0,
ogham space mark U+1680, the Unicode spaces U+2000–U+200A, line separator
U+2028, paragraph separator U+2029, narrow no-break space U+202F, medium
mathematical space U+205F, and ideographic space U+3000. -/
def isPySpace (c : Char) : Bool :=
  (9 ≤ c.toNat && c.toNat ≤ 13) || (28 ≤ c.toNat && c.toNat ≤ 31) ||
  c.toNat = 32 || c.toNat = 133 || c.toNat = 160 || c.toNat = 5760 ||
  (8192 ≤ c.toNat && c.toNat ≤ 8202) || c.toNat = 8232 || c.toNat = 8233 ||
  c.toNat = 8239 || c.toNat = 8287 || c.toNat = 12288

/-- Python's `s.strip()` on a character list. -/
def pyStripL (cs : List Char) : List Char :=
  ((cs.dropWhile isPySpace).reverse.dropWhile isPySpace).reverse

/-- Python's `s.strip("\n")` on a character list. -/
def stripNLL (cs : List Char) : List Char :=
  ((cs.dropWhile (fun c => c = '\n')).reverse.dropWhile (fun c => c = '\n')).reverse

/-- The `extract_str` lambda of line 162: `s.strip().strip("\n")`. -/
def extract_strL (cs : List Char) : List Char := stripNLL (pyStripL cs)

/-- `extract_str` on strings. -/
def extract_str (s : String) : String := String.mk (extract_strL s.toList)

/-- Python's `arg.split("\n")`: split at every newline, keeping empty parts. -/
def pySplitNL : List Char → List (List Char)
  | [] => [[]]
  | c :: rest =>
      if c = '\n' then [] :: pySplitNL rest
      else
        match pySplitNL rest with
        | [] => [[c]]
        | g :: gs => (c :: g) :: gs

/-- `convert_to_list(arg)` (lines 159–163): split on newlines, strip each
part, keep the non-empty ones. -/
def convert_to_list (arg : String) : List String :=
  (((pySplitNL arg.toList).map extract_strL).filter (fun g => !g.isEmpty)).map String.mk

/-- Lines 186–188 and 189–194: when a multi-value flag received exactly one
value containing a newline, split it with `convert_to_list`. -/
def splitIfNewlineJoined (values : List String) : List String :=
  match values with
  | [v] => if v.toList.contains '\n' then convert_to_list v else values
  | _ => values

/-- The parsed command-line arguments (`args` after `parser.parse_args()`);
`attachments = none` models the flag being absent, and the dispositions
default is the parser's `default=[AttachmentDisposition.ATTACHMENT]`. -/
structure Args where
  to_email : List String
  subject : String
  markdown_body : String
  from_email : String
  api_key : String
  attachments : Option (List String) := none
  attachments_disposition : List String := [AttachmentDisposition.ATTACHMENT]
deriving Repr, DecidableEq

/-- `args.attachments` after the newline-splitting step of lines 186–188. -/
def parsedAttachments (args : Args) : Option (List String) :=
  args.attachments.map splitIfNewlineJoined

/-- `args.attachments_disposition` after the newline-splitting step of lines
189–194. -/
def parsedDispositions (args : Args) : List String :=
  splitIfNewlineJoined args.attachments_disposition

/-- The `Mail(...)` built on lines 170–175, before any attachment is added. -/
def baseMail (render : String → String) (args : Args) : Mail :=
  { from_email := args.from_email
    to_emails := args.to_email
    subject := args.subject
    html_content := render args.markdown_body
    attachments := [] }

/-- The provider's response: status code, body, headers (lines 202–204). -/
structure Response where
  status_code : Nat
  body : String
  headers : String
deriving Repr, DecidableEq

/-- Observable outcome of one run: how many times `sg.send` was called, the
message it was given (if it was called), the process exit code, and what the
send phase wrote to stdout / stderr. -/
structure RunResult where
  sendAttempts : Nat
  sentMessage : Option Mail
  exitCode : Nat
  stdoutTail : List String
  stderr : List String
deriving Repr, DecidableEq

/-- Lines 199–207: one `sg.send(message)` call inside `try`; on success print
status code, body and headers (exit 0), on any exception write it to stderr
and `exit(1)`. -/
def deliver (provider : Mail → Except String Response) (message : Mail) : RunResult :=
  match provider message with
  | .ok r =>
      { sendAttempts := 1
        sentMessage := some message
        exitCode := 0
        stdoutTail := [toString r.status_code, r.body, r.headers]
        stderr := [] }
  | .error e =>
      { sendAttempts := 1
        sentMessage := some message
        exitCode := 1
        stdoutTail := []
        stderr := [e ++ "\n"] }

/-- The `__main__` block (lines 166–207) after argument parsing: build the
mail, normalise the two multi-value flags, add attachments when requested
(an exception there kills the process before any send), then deliver. -/
def runMain (render : String → String) (fs : String → Option (List Nat))
    (mime : List Nat → String) (provider : Mail → Except String Response)
    (args : Args) : RunResult :=
  let message := baseMail render args
  let atts := parsedAttachments args
  if is_attachment_requested atts then
    match add_attachments fs mime message (atts.getD []) (parsedDispositions args) with
    | (_, some e) =>
        { sendAttempts := 0, sentMessage := none, exitCode := 1
          stdoutTail := [], stderr := [e] }
    | (m, none) => deliver provider m
  else
    deliver provider message

/-! Helper lemmas about the embedding. -/

lemma normalizeSentinel_of_one_lt {ds : List String} (h : 1 < ds.length) :
    normalizeSentinel ds = ds := by
  match ds with
  | [] => simp at h
  | [d] => simp at h
  | a :: b :: t => rfl

lemma reconcile_nil (atts : List String) :
    reconcileDispositions atts [] =
      .ok (List.replicate atts.length AttachmentDisposition.ATTACHMENT) := rfl

lemma reconcile_sentinel_eq_nil (atts : List String) :
    reconcileDispositions atts [AttachmentDisposition.EMPTY] =
      reconcileDispositions atts [] := rfl

lemma reconcile_singleton (atts : List String) {d : String}
    (h : d ≠ AttachmentDisposition.EMPTY) :
    reconcileDispositions atts [d] = .ok (List.replicate atts.length d) := by
  simp [reconcileDispositions, normalizeSentinel, dispositionPolicy, h]

lemma reconcile_pos {atts ds : List String} (h1 : 1 < ds.length)
    (h2 : atts.length = ds.length) :
    reconcileDispositions atts ds = .ok ds := by
  have hn : ds ≠ [] := by intro hc; subst hc; simp at h1
  have hl : ds.length ≠ 1 := by omega
  simp [reconcileDispositions, normalizeSentinel_of_one_lt h1, dispositionPolicy,
    hn, hl, h2]

lemma reconcile_mismatch {atts ds : List String} (h1 : 1 < ds.length)
    (h2 : atts.length ≠ ds.length) :
    reconcileDispositions atts ds = .error countMismatchMsg := by
  have hn : ds ≠ [] := by intro hc; subst hc; simp at h1
  have hl : ds.length ≠ 1 := by omega
  simp [reconcileDispositions, normalizeSentinel_of_one_lt h1, dispositionPolicy,
    hn, hl, h2]

lemma reconcile_ok_length {atts disps ds : List String}
    (h : reconcileDispositions atts disps = .ok ds) : ds.length = atts.length := by
  unfold reconcileDispositions dispositionPolicy at h
  split_ifs at h with h1 h2 h3 <;> cases h <;> first | simp | omega

lemma buildAttachment?_eq (fs : String → Option (List Nat)) (mime : List Nat → String)
    (p d : String) :
    buildAttachment? fs mime p d = (fs p).map fun bytes =>
      { fileContent := b64encode bytes
        fileName := pathName p
        fileType := mime bytes
        disposition := d
        contentId := pathName p } := by
  cases h : fs p <;> simp [buildAttachment?, h]

lemma buildAttachment?_disposition {fs : String → Option (List Nat)}
    {mime : List Nat → String} {p d : String} {a : Attachment}
    (h : buildAttachment? fs mime p d = some a) : a.disposition = d := by
  cases hf : fs p with
  | none => simp [buildAttachment?, hf] at h
  | some bytes =>
      simp only [buildAttachment?, hf, Option.some.injEq] at h
      subst h
      rfl

lemma attachLoop_get? (fs : String → Option (List Nat)) (mime : List Nat → String) :
    ∀ pairs : List (String × String), (attachLoop fs mime pairs).2 = none →
      ∀ i : Nat, (attachLoop fs mime pairs).1[i]? =
        pairs[i]?.bind fun pd => buildAttachment? fs mime pd.1 pd.2
  | [], _, i => by simp [attachLoop]
  | (p, d) :: rest, h, i => by
      cases hb : buildAttachment? fs mime p d with
      | none => simp [attachLoop, hb] at h
      | some a =>
          have h2 : (attachLoop fs mime rest).2 = none := by
            simpa [attachLoop, hb] using h
          cases i with
          | zero => simp [attachLoop, hb]
          | succ n =>
              simp only [attachLoop, hb, List.getElem?_cons_succ]
              exact attachLoop_get? fs mime rest h2 n

lemma attachLoop_all_disposition (fs : String → Option (List Nat))
    (mime : List Nat → String) (d : String) :
    ∀ paths : List String,
      ((attachLoop fs mime (paths.zip (List.replicate paths.length d))).1).all
        (fun a => a.disposition == d) = true
  | [] => rfl
  | p :: rest => by
      have hz : (p :: rest).zip (List.replicate (p :: rest).length d) =
          (p, d) :: rest.zip (List.replicate rest.length d) := by
        simp [List.replicate_succ]
      rw [hz]
      cases hb : buildAttachment? fs mime p d with
      | none => simp [attachLoop, hb]
      | some a =>
          have ha := buildAttachment?_disposition hb
          simp [attachLoop, hb, ha, attachLoop_all_disposition fs mime d rest]

lemma add_attachments_ok {fs : String → Option (List Nat)} {mime : List Nat → String}
    {msg m : Mail} {atts disps : List String}
    (h : add_attachments fs mime msg atts disps = (m, none)) :
    ∃ ds, reconcileDispositions atts disps = .ok ds ∧
      (attachLoop fs mime (atts.zip ds)).2 = none ∧
      m = { msg with attachments := msg.attachments ++ (attachLoop fs mime (atts.zip ds)).1 } := by
  unfold add_attachments at h
  cases hr : reconcileDispositions atts disps with
  | error e => rw [hr] at h; simp at h
  | ok ds =>
      rw [hr] at h
      simp only [Prod.mk.injEq] at h
      exact ⟨ds, rfl, h.2, h.1.symm⟩

/-! Concrete data used by the witnesses. -/

/-- Demo filesystem: two readable files, everything else unreadable. -/
def fsDemo : String → Option (List Nat) := fun p =>
  if p = "docs/a.txt" then some [97, 98]
  else if p = "b.png" then some [1, 2, 3]
  else none

/-- Demo filesystem on which every path is unreadable. -/
def fsNone : String → Option (List Nat) := fun _ => none

/-- Demo MIME detector. -/
def mimeDemo : List Nat → String := fun bytes =>
  if bytes.headD 0 = 1 then "image/png" else "text/plain"

/-- Demo markdown renderer. -/
def renderDemo : String → String := fun s => "<p>" ++ s ++ "</p>"

/-- Demo provider that accepts every message with status 202. -/
def providerOk : Mail → Except String Response :=
  fun _ => .ok { status_code := 202, body := "", headers := "hdrs" }

/-- Demo provider that rejects every message. -/
def providerErr : Mail → Except String Response :=
  fun _ => .error "HTTP Error 401: Unauthorized"

/-- A demo mail with no attachments yet. -/
def mailDemo : Mail :=
  { from_email := "from@example.com"
    to_emails := ["to@example.com"]
    subject := "s"
    html_content := "<p>hi</p>"
    attachments := [] }

/-- Demo parsed arguments. -/
def argsDemo : Args :=
  { to_email := ["to@example.com"]
    subject := "s"
    markdown_body := "hi"
    from_email := "from@example.com"
    api_key := "k"
    attachments := some ["docs/a.txt"]
    attachments_disposition := [AttachmentDisposition.ATTACHMENT] }

lemma add_attachments_of_ok {atts disps ds : List String}
    (fs : String → Option (List Nat)) (mime : List Nat → String) (msg : Mail)
    (h : reconcileDispositions atts disps = .ok ds) :
    add_attachments fs mime msg atts disps =
      ({ msg with attachments := msg.attachments ++ (attachLoop fs mime (atts.zip ds)).1 },
        (attachLoop fs mime (atts.zip ds)).2) := by
  unfold add_attachments
  rw [h]

lemma add_attachments_of_error {atts disps : List String} {e : String}
    (fs : String → Option (List Nat)) (mime : List Nat → String) (msg : Mail)
    (h : reconcileDispositions atts disps = .error e) :
    add_attachments fs mime msg atts disps = (msg, some e) := by
  unfold add_attachments
  rw [h]

/-! The claims. -/

/-- C1: for every list of N attachment paths and every list of M disposition
values with 1 < M and M ≠ N, `add_attachments` fails with the count-mismatch
`ValueError` and returns the message unchanged — no attachment is added. -/
theorem c1_count_mismatch_rejects (fs : String → Option (List Nat))
    (mime : List Nat → String) (msg : Mail) (atts disps : List String)
    (h1 : 1 < disps.length) (h2 : disps.length ≠ atts.length) :
    add_attachments fs mime msg atts disps = (msg, some countMismatchMsg) :=
  add_attachments_of_error fs mime msg (reconcile_mismatch h1 h2.symm)

/-- Witness for C1 at one attachment against two dispositions. -/
theorem c1_count_mismatch_rejects_witness :
    add_attachments fsDemo mimeDemo mailDemo ["docs/a.txt"]
      [AttachmentDisposition.INLINE, AttachmentDisposition.ATTACHMENT] =
      (mailDemo, some countMismatchMsg) :=
  c1_count_mismatch_rejects fsDemo mimeDemo mailDemo _ _ (by decide) (by decide)

/-- C2: for every non-empty attachment list and an empty disposition list,
every attachment record produced carries the default disposition
`attachment`. -/
theorem c2_empty_dispositions_default (fs : String → Option (List Nat))
    (mime : List Nat → String) (msg : Mail) (atts : List String)
    (hne : atts ≠ []) (hmsg : msg.attachments = []) :
    ((add_attachments fs mime msg atts []).1.attachments).all
      (fun a => a.disposition == AttachmentDisposition.ATTACHMENT) = true := by
  rw [add_attachments_of_ok fs mime msg (reconcile_nil atts)]
  simp only [hmsg, List.nil_append]
  exact attachLoop_all_disposition fs mime AttachmentDisposition.ATTACHMENT atts

/-- Witness for C2 at two attachments and no dispositions. -/
theorem c2_empty_dispositions_default_witness :
    ((add_attachments fsDemo mimeDemo mailDemo ["docs/a.txt", "b.png"] []).1.attachments).all
      (fun a => a.disposition == AttachmentDisposition.ATTACHMENT) = true :=
  c2_empty_dispositions_default fsDemo mimeDemo mailDemo _ (by decide) rfl

/-- C3 fails as stated: the CLI accepts the sentinel `""` as a disposition
value, and with the single disposition value `""` the produced record's
disposition is `"attachment"`, not the supplied value. -/
theorem c3_counterexample :
    ¬ (∀ a ∈ (add_attachments fsDemo mimeDemo mailDemo ["docs/a.txt"] [""]).1.attachments,
        a.disposition = "") := by
  decide

/-- C3 (amended): for every non-empty attachment list and a disposition list
containing exactly one value distinct from the unset sentinel `""`, every
attachment record produced carries that single value (broadcast). -/
theorem c3_single_disposition_broadcast (fs : String → Option (List Nat))
    (mime : List Nat → String) (msg : Mail) (atts : List String) (d : String)
    (hne : atts ≠ []) (hd : d ≠ AttachmentDisposition.EMPTY)
    (hmsg : msg.attachments = []) :
    ((add_attachments fs mime msg atts [d]).1.attachments).all
      (fun a => a.disposition == d) = true := by
  rw [add_attachments_of_ok fs mime msg (reconcile_singleton atts hd)]
  simp only [hmsg, List.nil_append]
  exact attachLoop_all_disposition fs mime d atts

/-- Witness for the amended C3 at two attachments and the single value
`inline`. -/
theorem c3_single_disposition_broadcast_witness :
    ((add_attachments fsDemo mimeDemo mailDemo ["docs/a.txt", "b.png"]
        [AttachmentDisposition.INLINE]).1.attachments).all
      (fun a => a.disposition == AttachmentDisposition.INLINE) = true :=
  c3_single_disposition_broadcast fsDemo mimeDemo mailDemo _ _ (by decide) (by decide) rfl

/-- C5: a disposition list that is exactly one sentinel element behaves
identically to an empty disposition list, and (for a message starting with no
attachments) every produced record gets the default `attachment`. -/
theorem c5_sentinel_treated_as_empty (fs : String → Option (List Nat))
    (mime : List Nat → String) (msg : Mail) (atts : List String) :
    add_attachments fs mime msg atts [AttachmentDisposition.EMPTY] =
      add_attachments fs mime msg atts [] ∧
    (msg.attachments = [] →
      ((add_attachments fs mime msg atts [AttachmentDisposition.EMPTY]).1.attachments).all
        (fun a => a.disposition == AttachmentDisposition.ATTACHMENT) = true) := by
  constructor
  · rfl
  · intro hmsg
    rw [add_attachments_of_ok fs mime msg
      ((reconcile_sentinel_eq_nil atts).trans (reconcile_nil atts))]
    simp only [hmsg, List.nil_append]
    exact attachLoop_all_disposition fs mime AttachmentDisposition.ATTACHMENT atts

/-- Witness for C5 at one attachment. -/
theorem c5_sentinel_treated_as_empty_witness :
    add_attachments fsDemo mimeDemo mailDemo ["docs/a.txt"] [AttachmentDisposition.EMPTY] =
      add_attachments fsDemo mimeDemo mailDemo ["docs/a.txt"] [] ∧
    ((add_attachments fsDemo mimeDemo mailDemo ["docs/a.txt"]
        [AttachmentDisposition.EMPTY]).1.attachments).all
      (fun a => a.disposition == AttachmentDisposition.ATTACHMENT) = true :=
  ⟨(c5_sentinel_treated_as_empty fsDemo mimeDemo mailDemo ["docs/a.txt"]).1,
    (c5_sentinel_treated_as_empty fsDemo mimeDemo mailDemo ["docs/a.txt"]).2 rfl⟩

lemma getElem?_eq_some_getD {l : List String} {i : Nat} (h : i < l.length) :
    l[i]? = some (l.getD i "") := by
  rw [List.getD_eq_getElem?_getD, List.getElem?_eq_getElem h]
  rfl

lemma attachLoop_success_all (fs : String → Option (List Nat))
    (mime : List Nat → String) :
    ∀ pairs : List (String × String), (attachLoop fs mime pairs).2 = none →
      ∀ pd ∈ pairs, (buildAttachment? fs mime pd.1 pd.2).isSome
  | [], _, pd, hpd => by simp at hpd
  | (p, d) :: rest, h, pd, hpd => by
      cases hb : buildAttachment? fs mime p d with
      | none => simp [attachLoop, hb] at h
      | some a =>
          have h2 : (attachLoop fs mime rest).2 = none := by
            simpa [attachLoop, hb] using h
          rcases List.mem_cons.mp hpd with heq | hmem
          · subst heq; simp [hb]
          · exact attachLoop_success_all fs mime rest h2 pd hmem

/-- C4: for N attachment paths and N dispositions with N > 1, reconciliation
pairs them positionally: record *i* is built from path *i* and carries
disposition *i*. -/
theorem c4_positional_pairing (fs : String → Option (List Nat))
    (mime : List Nat → String) (msg m : Mail) (atts disps : List String)
    (h1 : 1 < disps.length) (h2 : atts.length = disps.length)
    (hmsg : msg.attachments = [])
    (hok : add_attachments fs mime msg atts disps = (m, none)) :
    ∀ i : Nat, i < atts.length →
      m.attachments[i]? = buildAttachment? fs mime (atts.getD i "") (disps.getD i "") ∧
      m.attachments[i]?.map Attachment.disposition = some (disps.getD i "") := by
  intro i hi
  obtain ⟨ds, hr, hloop, hm⟩ := add_attachments_ok hok
  rw [reconcile_pos h1 h2] at hr
  injection hr with hds
  subst hds
  subst hm
  have hz : (atts.zip disps)[i]? = some (atts.getD i "", disps.getD i "") :=
    List.getElem?_zip_eq_some.mpr
      ⟨getElem?_eq_some_getD hi, getElem?_eq_some_getD (h2 ▸ hi)⟩
  have hget := attachLoop_get? fs mime (atts.zip disps) hloop i
  rw [hz] at hget
  have hmain : ({ msg with
      attachments := msg.attachments ++ (attachLoop fs mime (atts.zip disps)).1 } :
        Mail).attachments[i]? =
      buildAttachment? fs mime (atts.getD i "") (disps.getD i "") := by
    simp only [hmsg, List.nil_append]
    exact hget
  refine ⟨hmain, ?_⟩
  have hsome := attachLoop_success_all fs mime (atts.zip disps) hloop
    (atts.getD i "", disps.getD i "") (List.getElem?_mem hz)
  obtain ⟨a, ha⟩ := Option.isSome_iff_exists.mp hsome
  rw [hmain, ha]
  simp [buildAttachment?_disposition ha]

/-- Witness for C4: two attachments paired with two dispositions, checked at
index 1. -/
theorem c4_positional_pairing_witness :
    ((add_attachments fsDemo mimeDemo mailDemo ["docs/a.txt", "b.png"]
        [AttachmentDisposition.INLINE, AttachmentDisposition.ATTACHMENT]).1.attachments)[1]?.map
      Attachment.disposition = some AttachmentDisposition.ATTACHMENT :=
  (c4_positional_pairing fsDemo mimeDemo mailDemo
    (add_attachments fsDemo mimeDemo mailDemo ["docs/a.txt", "b.png"]
      [AttachmentDisposition.INLINE, AttachmentDisposition.ATTACHMENT]).1
    ["docs/a.txt", "b.png"] [AttachmentDisposition.INLINE, AttachmentDisposition.ATTACHMENT]
    (by decide) (by decide) rfl (by decide) 1 (by decide)).2

/-- C9: each record produced by a successful reconciliation carries the base64
encoding of the file's bytes as content, a MIME type computed from those
bytes, and the path's final component as both file name and content id. -/
theorem c9_record_fields (fs : String → Option (List Nat))
    (mime : List Nat → String) (msg m : Mail) (atts disps : List String)
    (hmsg : msg.attachments = [])
    (hok : add_attachments fs mime msg atts disps = (m, none)) :
    ∀ i : Nat, i < atts.length →
      m.attachments[i]? = (fs (atts.getD i "")).map fun bytes =>
        { fileContent := b64encode bytes
          fileName := pathName (atts.getD i "")
          fileType := mime bytes
          disposition := (reconciledDispositions atts disps).getD i ""
          contentId := pathName (atts.getD i "") } := by
  intro i hi
  obtain ⟨ds, hr, hloop, hm⟩ := add_attachments_ok hok
  have hrd : reconciledDispositions atts disps = ds := by
    unfold reconciledDispositions
    rw [hr]
  have hlen : i < ds.length := by rw [reconcile_ok_length hr]; exact hi
  have hz : (atts.zip ds)[i]? = some (atts.getD i "", ds.getD i "") :=
    List.getElem?_zip_eq_some.mpr
      ⟨getElem?_eq_some_getD hi, getElem?_eq_some_getD hlen⟩
  have hget := attachLoop_get? fs mime (atts.zip ds) hloop i
  rw [hz] at hget
  subst hm
  simp only [hmsg, List.nil_append]
  rw [hget]
  simp only [Option.some_bind]
  rw [buildAttachment?_eq, hrd]

/-- Witness for C9 at index 0 of a two-attachment request. -/
theorem c9_record_fields_witness :
    ((add_attachments fsDemo mimeDemo mailDemo ["docs/a.txt", "b.png"]
        [AttachmentDisposition.INLINE, AttachmentDisposition.ATTACHMENT]).1.attachments)[0]? =
      (fsDemo "docs/a.txt").map fun bytes =>
        { fileContent := b64encode bytes
          fileName := pathName "docs/a.txt"
          fileType := mimeDemo bytes
          disposition := (reconciledDispositions ["docs/a.txt", "b.png"]
            [AttachmentDisposition.INLINE, AttachmentDisposition.ATTACHMENT]).getD 0 ""
          contentId := pathName "docs/a.txt" } :=
  c9_record_fields fsDemo mimeDemo mailDemo
    (add_attachments fsDemo mimeDemo mailDemo ["docs/a.txt", "b.png"]
      [AttachmentDisposition.INLINE, AttachmentDisposition.ATTACHMENT]).1
    ["docs/a.txt", "b.png"] [AttachmentDisposition.INLINE, AttachmentDisposition.ATTACHMENT]
    rfl (by decide) 0 (by decide)

lemma mk_toList (s : String) : String.mk s.toList = s := by
  cases s
  rfl

lemma toList_ne_nil {s : String} (h : s ≠ "") : s.toList ≠ [] := by
  intro hc
  apply h
  cases s with
  | mk data =>
      simp only [String.toList] at hc
      subst hc
      rfl

lemma pySplitNL_no_nl : ∀ cs : List Char, '\n' ∉ cs → pySplitNL cs = [cs]
  | [], _ => rfl
  | c :: rest, h => by
      have hc : ¬c = '\n' := fun hcc => h (hcc ▸ List.mem_cons_self c rest)
      have hr : '\n' ∉ rest := fun hm => h (List.mem_cons_of_mem c hm)
      rw [pySplitNL, if_neg hc, pySplitNL_no_nl rest hr]

lemma pySplitNL_append : ∀ xs ys : List Char, '\n' ∉ xs →
    pySplitNL (xs ++ '\n' :: ys) = xs :: pySplitNL ys
  | [], ys, _ => by rw [List.nil_append, pySplitNL, if_pos rfl]
  | x :: xs, ys, h => by
      have hx : ¬x = '\n' := fun hcc => h (hcc ▸ List.mem_cons_self x xs)
      have hr : '\n' ∉ xs := fun hm => h (List.mem_cons_of_mem x hm)
      rw [List.cons_append, pySplitNL, if_neg hx, pySplitNL_append xs ys hr]

lemma extract_strL_toList {s : String} (h : extract_str s = s) :
    extract_strL s.toList = s.toList := by
  have := congrArg String.toList h
  simpa [extract_str] using this

/-- C6 fails as stated: the pair of non-empty paths `"a "` and `"b"` parses to
`["a ", "b"]` when passed separately, but the newline-joined single value
`"a \nb"` is stripped by `convert_to_list` and parses to `["a", "b"]`. -/
theorem c6_counterexample :
    splitIfNewlineJoined ["a \nb"] = ["a", "b"] ∧
    splitIfNewlineJoined ["a ", "b"] = ["a ", "b"] ∧
    (["a", "b"] : List String) ≠ ["a ", "b"] := by
  refine ⟨by decide, rfl, by decide⟩

/-- C6 (amended): for non-empty paths containing no newline and unchanged by
the stripping of `convert_to_list` (no leading or trailing whitespace), one
newline-joined value parses to exactly the same list as separate values; the
rule is the same shared splitting step for `--attachments` and
`--attachments-disposition`. -/
theorem c6_newline_join_equivalence (p q : String) (hp : p ≠ "") (hq : q ≠ "")
    (hnp : '\n' ∉ p.toList) (hnq : '\n' ∉ q.toList)
    (hep : extract_str p = p) (heq : extract_str q = q) :
    splitIfNewlineJoined [p ++ "\n" ++ q] = [p, q] ∧
    splitIfNewlineJoined [p, q] = [p, q] := by
  have htl : (p ++ "\n" ++ q).toList = p.toList ++ '\n' :: q.toList := by
    show (p.toList ++ ['\n']) ++ q.toList = p.toList ++ '\n' :: q.toList
    simp
  have hsplit : pySplitNL (p ++ "\n" ++ q).toList = [p.toList, q.toList] := by
    rw [htl, pySplitNL_append p.toList q.toList hnp, pySplitNL_no_nl q.toList hnq]
  have hconv : convert_to_list (p ++ "\n" ++ q) = [p, q] := by
    unfold convert_to_list
    rw [hsplit]
    simp only [List.map_cons, List.map_nil, extract_strL_toList hep,
      extract_strL_toList heq]
    rw [List.filter_cons_of_pos, List.filter_cons_of_pos, List.filter_nil]
    · simp [mk_toList]
    · simpa using toList_ne_nil hq
    · simpa using toList_ne_nil hp
  have hcontains : ((p ++ "\n" ++ q).toList).contains '\n' = true := by
    rw [htl]
    simp
  constructor
  · show (if (p ++ "\n" ++ q).toList.contains '\n' = true then
        convert_to_list (p ++ "\n" ++ q) else [p ++ "\n" ++ q]) = [p, q]
    rw [if_pos hcontains]
    exact hconv
  · rfl

/-- Witness for the amended C6 at the pair `a.txt`, `b.txt`. -/
theorem c6_newline_join_equivalence_witness :
    splitIfNewlineJoined ["a.txt" ++ "\n" ++ "b.txt"] = ["a.txt", "b.txt"] ∧
    splitIfNewlineJoined ["a.txt", "b.txt"] = ["a.txt", "b.txt"] :=
  c6_newline_join_equivalence "a.txt" "b.txt" (by decide) (by decide) (by decide)
    (by decide) (by decide) (by decide)

lemma runMain_eq (render : String → String) (fs : String → Option (List Nat))
    (mime : List Nat → String) (provider : Mail → Except String Response)
    (args : Args) :
    runMain render fs mime provider args =
      if is_attachment_requested (parsedAttachments args) then
        match add_attachments fs mime (baseMail render args)
            ((parsedAttachments args).getD []) (parsedDispositions args) with
        | (_, some e) =>
            { sendAttempts := 0, sentMessage := none, exitCode := 1
              stdoutTail := [], stderr := [e] }
        | (m, none) => deliver provider m
      else deliver provider (baseMail render args) := rfl

lemma runMain_of_not_requested {args : Args} (render : String → String)
    (fs : String → Option (List Nat)) (mime : List Nat → String)
    (provider : Mail → Except String Response)
    (h : is_attachment_requested (parsedAttachments args) = false) :
    runMain render fs mime provider args = deliver provider (baseMail render args) := by
  rw [runMain_eq, if_neg]
  simp [h]

lemma runMain_of_requested_ok {args : Args} {m2 : Mail} (render : String → String)
    (fs : String → Option (List Nat)) (mime : List Nat → String)
    (provider : Mail → Except String Response)
    (h : is_attachment_requested (parsedAttachments args) = true)
    (hadd : add_attachments fs mime (baseMail render args)
      ((parsedAttachments args).getD []) (parsedDispositions args) = (m2, none)) :
    runMain render fs mime provider args = deliver provider m2 := by
  rw [runMain_eq, if_pos (by simp [h]), hadd]

lemma runMain_of_requested_err {args : Args} {m2 : Mail} {e : String}
    (render : String → String) (fs : String → Option (List Nat))
    (mime : List Nat → String) (provider : Mail → Except String Response)
    (h : is_attachment_requested (parsedAttachments args) = true)
    (hadd : add_attachments fs mime (baseMail render args)
      ((parsedAttachments args).getD []) (parsedDispositions args) = (m2, some e)) :
    runMain render fs mime provider args =
      { sendAttempts := 0, sentMessage := none, exitCode := 1
        stdoutTail := [], stderr := [e] } := by
  rw [runMain_eq, if_pos (by simp [h]), hadd]

lemma deliver_sendAttempts (provider : Mail → Except String Response) (m : Mail) :
    (deliver provider m).sendAttempts = 1 := by
  unfold deliver
  cases provider m <;> rfl

lemma deliver_sentMessage (provider : Mail → Except String Response) (m : Mail) :
    (deliver provider m).sentMessage = some m := by
  unfold deliver
  cases provider m <;> rfl

/-- C7: the send phase makes exactly one attempt per reached send; a failing
send writes the error message to stderr and exits 1, a successful send prints
the provider's status code, body and headers and exits 0; and no run of the
program ever makes more than one send attempt (no retries). -/
theorem c7_single_send_outcome :
    (∀ (provider : Mail → Except String Response) (m : Mail) (e : String),
      provider m = .error e →
        deliver provider m =
          { sendAttempts := 1, sentMessage := some m, exitCode := 1
            stdoutTail := [], stderr := [e ++ "\n"] }) ∧
    (∀ (provider : Mail → Except String Response) (m : Mail) (r : Response),
      provider m = .ok r →
        deliver provider m =
          { sendAttempts := 1, sentMessage := some m, exitCode := 0
            stdoutTail := [toString r.status_code, r.body, r.headers], stderr := [] }) ∧
    (∀ (render : String → String) (fs : String → Option (List Nat))
        (mime : List Nat → String) (provider : Mail → Except String Response)
        (args : Args),
      (runMain render fs mime provider args).sendAttempts ≤ 1) := by
  refine ⟨?_, ?_, ?_⟩
  · intro provider m e h
    unfold deliver
    rw [h]
  · intro provider m r h
    unfold deliver
    rw [h]
  · intro render fs mime provider args
    cases hreq : is_attachment_requested (parsedAttachments args) with
    | false =>
        rw [runMain_of_not_requested render fs mime provider hreq, deliver_sendAttempts]
    | true =>
        rcases hadd : add_attachments fs mime (baseMail render args)
            ((parsedAttachments args).getD []) (parsedDispositions args) with ⟨m2, err⟩
        cases err with
        | none =>
            rw [runMain_of_requested_ok render fs mime provider hreq hadd,
              deliver_sendAttempts]
        | some e =>
            rw [runMain_of_requested_err render fs mime provider hreq hadd]
            exact Nat.zero_le 1

/-- Witness for C7: a rejecting provider yields exit 1 with the error on
stderr; an accepting provider yields exit 0 with the response printed. -/
theorem c7_single_send_outcome_witness :
    deliver providerErr mailDemo =
      { sendAttempts := 1, sentMessage := some mailDemo, exitCode := 1
        stdoutTail := [], stderr := ["HTTP Error 401: Unauthorized" ++ "\n"] } ∧
    deliver providerOk mailDemo =
      { sendAttempts := 1, sentMessage := some mailDemo, exitCode := 0
        stdoutTail := [toString (202 : Nat), "", "hdrs"], stderr := [] } :=
  ⟨c7_single_send_outcome.1 providerErr mailDemo "HTTP Error 401: Unauthorized" rfl,
    c7_single_send_outcome.2.1 providerOk mailDemo
      { status_code := 202, body := "", headers := "hdrs" } rfl⟩

/-- C8: whenever the provider is contacted, the message handed to it already
has the rendered HTML body and the fully assembled attachment list; and when
reconciliation or an attachment read fails, the provider is never contacted
(zero send attempts, nothing sent). -/
theorem c8_assembled_before_send (render : String → String)
    (fs : String → Option (List Nat)) (mime : List Nat → String)
    (provider : Mail → Except String Response) (args : Args) :
    (∀ m, (runMain render fs mime provider args).sentMessage = some m →
      m.html_content = render args.markdown_body ∧
      (is_attachment_requested (parsedAttachments args) = true →
        add_attachments fs mime (baseMail render args)
          ((parsedAttachments args).getD []) (parsedDispositions args) = (m, none)) ∧
      (is_attachment_requested (parsedAttachments args) = false →
        m = baseMail render args)) ∧
    (is_attachment_requested (parsedAttachments args) = true →
      (add_attachments fs mime (baseMail render args)
        ((parsedAttachments args).getD []) (parsedDispositions args)).2.isSome = true →
      (runMain render fs mime provider args).sendAttempts = 0 ∧
      (runMain render fs mime provider args).sentMessage = none) := by
  cases hreq : is_attachment_requested (parsedAttachments args) with
  | false =>
      have hrm := runMain_of_not_requested render fs mime provider hreq
      constructor
      · intro m hm
        rw [hrm, deliver_sentMessage] at hm
        injection hm with hm
        subst hm
        exact ⟨rfl, fun hc => Bool.noConfusion hc, fun _ => rfl⟩
      · exact fun hc => Bool.noConfusion hc
  | true =>
      rcases hadd : add_attachments fs mime (baseMail render args)
          ((parsedAttachments args).getD []) (parsedDispositions args) with ⟨m2, err⟩
      cases err with
      | none =>
          have hrm := runMain_of_requested_ok render fs mime provider hreq hadd
          constructor
          · intro m hm
            rw [hrm, deliver_sentMessage] at hm
            injection hm with hm
            subst hm
            refine ⟨?_, fun _ => rfl, fun hc => Bool.noConfusion hc⟩
            obtain ⟨ds, _, _, hm2⟩ := add_attachments_ok hadd
            rw [hm2]
            rfl
          · intro _ hc
            exact absurd hc (by simp)
      | some e =>
          have hrm := runMain_of_requested_err render fs mime provider hreq hadd
          constructor
          · intro m hm
            rw [hrm] at hm
            exact absurd hm (by simp)
          · intro _ _
            rw [hrm]
            exact ⟨rfl, rfl⟩

/-- Witness for C8: with every path unreadable, the attachment phase fails and
the provider is never contacted. -/
theorem c8_assembled_before_send_witness :
    (runMain renderDemo fsNone mimeDemo providerOk argsDemo).sendAttempts = 0 ∧
    (runMain renderDemo fsNone mimeDemo providerOk argsDemo).sentMessage = none :=
  (c8_assembled_before_send renderDemo fsNone mimeDemo providerOk argsDemo).2
    (by decide) (by decide)

/-- C10: when `--attachments` is absent, the empty list, or exactly `[""]`,
the run is independent of the filesystem and MIME detector (no attachment
file is ever opened, reconciliation never runs) and any sent message carries
no attachments. -/
theorem c10_no_attachments_requested (render : String → String)
    (fs fs2 : String → Option (List Nat)) (mime mime2 : List Nat → String)
    (provider : Mail → Except String Response) (args : Args)
    (h : args.attachments = none ∨ args.attachments = some [] ∨
      args.attachments = some [""]) :
    runMain render fs mime provider args = runMain render fs2 mime2 provider args ∧
    ∀ m, (runMain render fs mime provider args).sentMessage = some m →
      m.attachments = [] := by
  have hreq : is_attachment_requested (parsedAttachments args) = false := by
    rcases h with h | h | h <;> · unfold parsedAttachments; rw [h]; rfl
  rw [runMain_eq, runMain_eq, if_neg (by simp [hreq]), if_neg (by simp [hreq])]
  refine ⟨rfl, ?_⟩
  intro m hm
  rw [deliver_sentMessage] at hm
  injection hm with hm
  subst hm
  rfl

/-- Demo arguments with the `--attachments` flag absent. -/
def argsNoAtt : Args := { argsDemo with attachments := none }

/-- Witness for C10: a run with no `--attachments` flag gives the same result
on two different filesystems, and the sent message has no attachments. -/
theorem c10_no_attachments_requested_witness :
    runMain renderDemo fsDemo mimeDemo providerOk argsNoAtt =
      runMain renderDemo fsNone mimeDemo providerOk argsNoAtt :=
  (c10_no_attachments_requested renderDemo fsDemo fsNone mimeDemo mimeDemo
    providerOk argsNoAtt (Or.inl rfl)).1

end SendEmail
